import Mathlib

set_option linter.unusedVariables false

namespace WordToSite

/-!  Shallow embedding of the word-to-site-ai core, translated from the
repository sources.  Network and database effects are modelled by explicit
oracle parameters (functions supplying the outcome of each external call), and
fallible calls return Except/Option values.  -/

namespace Str

/-!  String primitives re-implemented structurally on the character list, so
that concrete instances reduce inside the kernel (`decide`/`rfl`).  Each is
extensionally the JavaScript operation the sources use.  -/

/-- `s.startsWith(pre)`. -/
def startsWith (s pre : String) : Bool := pre.data.isPrefixOf s.data

/-- `s.slice(n)` on character counts: drop the first n characters. -/
def drop (s : String) (n : Nat) : String := String.mk (s.data.drop n)

/-- First component of `s.split(sep)` for a one-character separator. -/
def headField (s : String) (sep : Char) : String :=
  String.mk (s.data.takeWhile (fun c => !(c = sep)))

/-- Helper of `containsSubstr`: does `sub` occur in the scanned list. -/
def containsAux (sub : List Char) : List Char → Bool
  | [] => sub.isEmpty
  | c :: cs => sub.isPrefixOf (c :: cs) || containsAux sub cs

/-- Substring containment (`s.includes(sub)`). -/
def containsSubstr (s sub : String) : Bool := containsAux sub.data s.data

end Str

namespace Proxy

/-! Embedding of the AI proxy gateway: `src/services/proxy-service.js`,
`src/middleware/proxy-auth.js` and `src/routes/proxy-routes.js`.  -/

/-- Row of `proxy_sites` as consumed by the middleware and the routes
(columns not read by the embedded code paths are omitted). -/
structure ProxySite where
  id : Nat
  domain : String
  subscription_tier : String
  monthly_token_limit : Nat
deriving DecidableEq, Repr

/-- Usage snapshot returned by `ProxyService.checkQuota`. -/
structure QuotaInfo where
  allowed : Bool
  used : Nat
  limit : Nat
  remaining : Nat
deriving DecidableEq, Repr

/-- `ProxyService.checkQuota(siteId, limit)` with `used` the summed
`total_tokens` of the current month (`getMonthlyUsage`).  the JavaScript
`Math.max(0, limit - used)` is Nat truncated subtraction. -/
def checkQuota (used limit : Nat) : QuotaInfo :=
  { allowed := decide (used < limit)
    used := used
    limit := limit
    remaining := limit - used }

/-- Outcome of the proxy auth middleware (`createProxyAuth` in
`src/middleware/proxy-auth.js`): a short-circuiting 401, a short-circuiting
429 carrying the usage snapshot, or authorization with `req.proxySite` and
`req.proxyQuota` attached. -/
inductive AuthResult where
  | unauthorized
  | quotaExceeded (usage : QuotaInfo)
  | authorized (site : ProxySite) (quota : QuotaInfo)
deriving Repr

/-- `createProxyAuth(proxyService)`: header check, `validateKey` lookup
(returns the active site row for the key, if any), then the quota gate.
`validateKey` and `monthlyUsage` stand for the database-backed
`proxyService.validateKey` and `proxyService.getMonthlyUsage`. -/
def createProxyAuth (authHeader : Option String)
    (validateKey : String → Option ProxySite)
    (monthlyUsage : Nat → Nat) : AuthResult :=
  match authHeader with
  | none => .unauthorized
  | some h =>
    if !(Str.startsWith h "Bearer wts_") then .unauthorized
    else
      match validateKey (Str.drop h 7) with
      | none => .unauthorized
      | some site =>
        let quota := checkQuota (monthlyUsage site.id) site.monthly_token_limit
        if !quota.allowed then .quotaExceeded quota
        else .authorized site quota

/-- One chat message of the OpenAI-compatible request body. -/
structure ChatMessage where
  role : String
  content : String
deriving DecidableEq, Repr

/-- Request body of POST `/v1/chat/completions`.  `model = none` models a
missing field and `some ""` the falsy empty string; `messages = none`
models a missing or non-array value. -/
structure ChatBody where
  model : Option String
  messages : Option (List ChatMessage)
  max_tokens : Option Nat
deriving DecidableEq, Repr

/-- Token usage normalised by the provider forwarding helpers. -/
structure Usage where
  prompt_tokens : Nat
  completion_tokens : Nat
  total_tokens : Nat
deriving DecidableEq, Repr

/-- Result shape produced by `_forwardToOpenAI` / `_forwardToGemini` /
`_forwardToAnthropic` on success. -/
structure ForwardResult where
  provider : String
  content : String
  model : String
  usage : Usage
deriving DecidableEq, Repr

/-- Oracle giving the outcome of each vendor call (`Except.error` models the
thrown upstream error). -/
structure ProviderOracle where
  openai : String → ChatBody → Except String ForwardResult
  gemini : String → ChatBody → Except String ForwardResult
  anthropic : String → ChatBody → Except String ForwardResult

/-- `ProxyService.forwardToProvider(model, body)`: prefix routing.  The
Bool records whether an upstream provider was invoked. -/
def forwardToProvider (providers : ProviderOracle) (model : String)
    (body : ChatBody) : Except String ForwardResult × Bool :=
  if Str.startsWith model "gpt-" then (providers.openai model body, true)
  else if Str.startsWith model "gemini-" then (providers.gemini model body, true)
  else if Str.startsWith model "claude-" then (providers.anthropic model body, true)
  else
    (.error ("Unsupported model: " ++ model ++ ". Use gpt-*, gemini-*, or claude-* models."),
      false)

/-- Row appended to `proxy_request_log` by `logRequest` (columns read by no
claim are omitted). -/
structure LogRow where
  provider : String
  model : String
  endpoint : String
  total_tokens : Nat
  response_status : Nat
  error_message : Option String
deriving DecidableEq, Repr

/-- Response emitted by the proxy tenant endpoints: an error envelope
(status, `error.type`, optional usage snapshot), a chat-completion
envelope, the `/v1/models` list, or the `/v1/usage` report. -/
inductive ApiResponse where
  | failure (status : Nat) (errType : String) (usage : Option QuotaInfo)
  | completion (model : String) (content : String) (usage : Usage)
  | modelsList (models : List String)
  | usageReport (domain : String) (tier : String) (usage : QuotaInfo)
deriving DecidableEq, Repr

/-- HTTP status of a response (success envelopes are sent with 200). -/
def ApiResponse.status : ApiResponse → Nat
  | .failure s _ _ => s
  | _ => 200

/-- The `error.type` field of a response, when it is an error envelope. -/
def ApiResponse.errTypeOpt : ApiResponse → Option String
  | .failure _ t _ => some t
  | _ => none

/-- Provider recorded on the 502 log row:
`req.body?.model?.split(-)[0] || unknown` (quotes elided). -/
def errProvider (model : Option String) : String :=
  match model with
  | none => "unknown"
  | some m =>
    let p := Str.headField m (Char.ofNat 45)
    if p = "" then "unknown" else p

/-- Handler body of POST `/v1/chat/completions` after the auth middleware
(`createProxyRouter` in `src/routes/proxy-routes.js`): request validation,
the allowed-model gate of the tier, provider dispatch, logging, and the catch
that turns a thrown forwarding error into 502.  Returns the response,
whether an upstream provider was called, and the appended log rows. -/
def handleChatCompletions (providers : ProviderOracle)
    (getAllowedModels : String → List String)
    (site : ProxySite) (body : ChatBody) :
    ApiResponse × Bool × List LogRow :=
  match body.model, body.messages with
  | some model, some msgs =>
    if model = "" then (.failure 400 "validation_error" none, false, [])
    else
      let allowedModels := getAllowedModels site.subscription_tier
      if allowedModels.length > 0 && !(allowedModels.contains model) then
        (.failure 403 "model_not_allowed" none, false, [])
      else
        match forwardToProvider providers model body with
        | (.ok result, called) =>
          (.completion result.model result.content result.usage, called,
            [{ provider := result.provider
               model := result.model
               endpoint := "/v1/chat/completions"
               total_tokens := result.usage.total_tokens
               response_status := 200
               error_message := none }])
        | (.error e, called) =>
          (.failure 502 "upstream_error" none, called,
            [{ provider := errProvider (some model)
               model := model
               endpoint := "/v1/chat/completions"
               total_tokens := 0
               response_status := 502
               error_message := some e }])
  | _, _ => (.failure 400 "validation_error" none, false, [])

/-- Full pipeline of POST `/v1/chat/completions`: auth middleware then the
handler.  A middleware short-circuit makes no upstream call and appends no
log row. -/
def chatEndpoint (authHeader : Option String)
    (validateKey : String → Option ProxySite) (monthlyUsage : Nat → Nat)
    (providers : ProviderOracle) (getAllowedModels : String → List String)
    (body : ChatBody) : ApiResponse × Bool × List LogRow :=
  match createProxyAuth authHeader validateKey monthlyUsage with
  | .unauthorized => (.failure 401 "authentication_error" none, false, [])
  | .quotaExceeded q => (.failure 429 "quota_exceeded" (some q), false, [])
  | .authorized site _ => handleChatCompletions providers getAllowedModels site body

/-- GET `/v1/models`: auth middleware then the model list of the tier. -/
def modelsEndpoint (authHeader : Option String)
    (validateKey : String → Option ProxySite) (monthlyUsage : Nat → Nat)
    (getAllowedModels : String → List String) : ApiResponse :=
  match createProxyAuth authHeader validateKey monthlyUsage with
  | .unauthorized => .failure 401 "authentication_error" none
  | .quotaExceeded q => .failure 429 "quota_exceeded" (some q)
  | .authorized site _ => .modelsList (getAllowedModels site.subscription_tier)

/-- GET `/v1/usage`: auth middleware then the quota snapshot it attached. -/
def usageEndpoint (authHeader : Option String)
    (validateKey : String → Option ProxySite) (monthlyUsage : Nat → Nat) :
    ApiResponse :=
  match createProxyAuth authHeader validateKey monthlyUsage with
  | .unauthorized => .failure 401 "authentication_error" none
  | .quotaExceeded q => .failure 429 "quota_exceeded" (some q)
  | .authorized site quota => .usageReport site.domain site.subscription_tier quota

/-- Concrete site row used by witnesses and counterexamples. -/
def site0 : ProxySite :=
  { id := 1, domain := "x.test", subscription_tier := "free", monthly_token_limit := 100 }

/-- Concrete key lookup: one active site behind the key `wts_testkey`. -/
def validateKey0 : String → Option ProxySite :=
  fun k => if k = "wts_testkey" then some site0 else none

/-- Provider oracle whose every vendor call fails upstream. -/
def providersErr : ProviderOracle :=
  { openai := fun _ _ => .error "upstream down"
    gemini := fun _ _ => .error "upstream down"
    anthropic := fun _ _ => .error "upstream down" }

/-- Canned successful forwarding result used by the success oracle. -/
def okResult (p m : String) : ForwardResult :=
  { provider := p
    content := "ok"
    model := m
    usage := { prompt_tokens := 1, completion_tokens := 2, total_tokens := 3 } }

/-- Provider oracle whose every vendor call succeeds. -/
def providersOk : ProviderOracle :=
  { openai := fun m _ => .ok (okResult "openai" m)
    gemini := fun m _ => .ok (okResult "gemini" m)
    anthropic := fun m _ => .ok (okResult "anthropic" m) }

/-- Well-formed chat body asking for a gpt model. -/
def bodyGpt : ChatBody :=
  { model := some "gpt-4o-mini", messages := some [{ role := "user", content := "hi" }],
    max_tokens := none }

/-- Well-formed chat body asking for a model outside the three prefixes. -/
def bodyLlama : ChatBody :=
  { model := some "llama-3-70b", messages := some [{ role := "user", content := "hi" }],
    max_tokens := none }

end Proxy

namespace Workflow

/-! Embedding of the domain+site workflow: `src/domain-workflow.js` with the
InstaWP helper `extractARecords` (src/unnamed/part_004).  Each external
provider call is an oracle field of `WorkflowEnv`; `Except.error` models the
thrown error with its message. -/

/-- Identifiers pushed into `result.steps` by `execute` and
`executeWithContexts` (the JS string literals, as an enum). -/
inductive StepId where
  | config_validated
  | domain_checked
  | domain_registered
  | site_created
  | site_ready
  | domain_mapped
  | cloudflare_zone_created
  | dns_records_set
  | nameservers_updated
  | security_configured
  | ssl_pending
  | deployment_applied
  | content_generated
deriving DecidableEq, Repr

/-- One entry of `result.steps` (the opaque `data` payload is omitted: no
claim reads it). -/
structure StepRecord where
  step : StepId
  success : Bool
  error : Option String
deriving DecidableEq, Repr

/-- Availability result of `namecheap.checkDomain` (premium pricing payload
only feeds the error text and is omitted). -/
structure Availability where
  available : Bool
  premium : Bool
deriving DecidableEq, Repr

/-- Site payload of `instawp.createSiteFromTemplate`. -/
structure SiteInfo where
  id : Nat
  wp_url : String
  wp_username : String
  wp_password : String
deriving DecidableEq, Repr

/-- One DNS record of the InstaWP map-domain response. -/
structure DnsRecord where
  type : String
  value : String
deriving DecidableEq, Repr

/-- Shape of the InstaWP map-domain response as read by `extractARecords`:
`none` models an absent or null field. -/
structure HostMapResponse where
  a_records : Option (List String)
  dns_records : Option (List DnsRecord)
deriving DecidableEq, Repr

/-- `InstaWPAPI.extractARecords(response)`: prefer `a_records` (a present
empty array is truthy in JS and is returned as-is), else filter A-type
`dns_records`, else fall back to the two hardcoded placeholder IPs. -/
def extractARecords (r : HostMapResponse) : List String :=
  match r.a_records with
  | some l => l
  | none =>
    match r.dns_records with
    | some recs => (recs.filter (fun rec => rec.type = "A")).map (fun rec => rec.value)
    | none => ["123.123.123.123", "124.124.124.124"]

/-- Cloudflare zone payload of `getOrCreateZone`. -/
structure Zone where
  id : String
  name_servers : List String
deriving DecidableEq, Repr

/-- Outcomes of the external calls made by one workflow run, in program
order.  `applyDeployment` and `generateContent` are the outcomes of the two
context stages of `executeWithContexts`. -/
structure WorkflowEnv where
  configValid : Bool
  checkDomain : Except String Availability
  registerDomain : Except String Unit
  createSite : Except String SiteInfo
  waitForSiteReady : Except String Unit
  mapDomain : Except String HostMapResponse
  getOrCreateZone : Except String Zone
  setARecords : Except String Unit
  setCustomNameservers : Except String Unit
  configureSecurity : Except String Unit
  applyDeployment : Except String Unit
  generateContent : Except String Unit

/-- Parameters of `DomainWorkflow.execute` read by the embedded control
flow. -/
structure Params where
  domain : String
  registerNewDomain : Bool
deriving DecidableEq, Repr

/-- Result of a run: `success`, the appended `steps`, the terminal `error`,
the `nameserverInstructions` block surfaced when the workflow did not
register the domain, and `errorDetails.failedAtStep` (the id of the last
recorded step; `none` models the JS fallback string `unknown`).  Payload
fields (site, cloudflare, ssl, finalUrls) are omitted: no claim reads
them. -/
structure RunResult where
  success : Bool
  steps : List StepRecord
  error : Option String
  nameserverInstructions : Option (List String)
  failedAtStep : Option StepId
deriving DecidableEq, Repr

/-- Failure result built by the catch block of `execute`. -/
def mkFail (steps : List StepRecord) (instrs : Option (List String))
    (msg : String) : RunResult :=
  { success := false
    steps := steps
    error := some msg
    nameserverInstructions := instrs
    failedAtStep := (steps.getLast?).map (fun r => r.step) }

/-- The fatal error text thrown when the extracted A-record list is empty. -/
def noARecordsMsg : String :=
  "Failed to get A record IPs from InstaWP. The domain was mapped but DNS configuration cannot proceed."

/-- `DomainWorkflow.execute(params)`: the linear pipeline of §4.3 with the
conditional registration and nameserver arcs.  The unavailable-domain error
text elides the premium-price tail of the JS message. -/
def execute (p : Params) (env : WorkflowEnv) : RunResult :=
  if !env.configValid then mkFail [] none "Missing required configuration" else
  let steps := [StepRecord.mk .config_validated true none]
  let regArc : Except (List StepRecord × String) (List StepRecord) :=
    if p.registerNewDomain then
      match env.checkDomain with
      | .error e => .error (steps, e)
      | .ok av =>
        let steps := steps ++ [StepRecord.mk .domain_checked true none]
        if !av.available then
          .error (steps, "Domain " ++ p.domain ++ " is not available for registration.")
        else
          match env.registerDomain with
          | .error e => .error (steps, e)
          | .ok _ => .ok (steps ++ [StepRecord.mk .domain_registered true none])
    else .ok steps
  match regArc with
  | .error (steps, e) => mkFail steps none e
  | .ok steps =>
  match env.createSite with
  | .error e => mkFail steps none e
  | .ok _site =>
  let steps := steps ++ [StepRecord.mk .site_created true none]
  match env.waitForSiteReady with
  | .error e => mkFail steps none e
  | .ok _ =>
  let steps := steps ++ [StepRecord.mk .site_ready true none]
  match env.mapDomain with
  | .error e => mkFail steps none e
  | .ok resp =>
  let steps := steps ++ [StepRecord.mk .domain_mapped true none]
  let aRecordIps := extractARecords resp
  if aRecordIps.length = 0 then mkFail steps none noARecordsMsg else
  match env.getOrCreateZone with
  | .error e => mkFail steps none e
  | .ok zone =>
  let steps := steps ++ [StepRecord.mk .cloudflare_zone_created true none]
  match env.setARecords with
  | .error e => mkFail steps none e
  | .ok _ =>
  let steps := steps ++ [StepRecord.mk .dns_records_set true none]
  let nsArc : Except (List StepRecord × String)
      (List StepRecord × Option (List String)) :=
    if p.registerNewDomain then
      match env.setCustomNameservers with
      | .error e => .error (steps, e)
      | .ok _ => .ok (steps ++ [StepRecord.mk .nameservers_updated true none], none)
    else .ok (steps, some zone.name_servers)
  match nsArc with
  | .error (steps, e) => mkFail steps none e
  | .ok (steps, instrs) =>
  match env.configureSecurity with
  | .error e => mkFail steps instrs e
  | .ok _ =>
  let steps := steps ++ [StepRecord.mk .security_configured true none,
    StepRecord.mk .ssl_pending true none]
  { success := true
    steps := steps
    error := none
    nameserverInstructions := instrs
    failedAtStep := none }

/-- Parameters of `executeWithContexts`: the base parameters plus whether a
deployment / content context was provided. -/
structure CtxParams where
  base : Params
  hasDeploymentContext : Bool
  hasContentContext : Bool
deriving DecidableEq, Repr

/-- `DomainWorkflow.executeWithContexts(params)`: run `execute`, propagate
failure unchanged, then soft-apply the two optional context stages, each
recording its own StepRecord without touching `success`.  The editor
selection stage records no step and is omitted. -/
def executeWithContexts (p : CtxParams) (env : WorkflowEnv) : RunResult :=
  let result := execute p.base env
  if !result.success then result else
  let result :=
    if p.hasDeploymentContext then
      match env.applyDeployment with
      | .ok _ =>
        { result with steps := result.steps ++ [StepRecord.mk .deployment_applied true none] }
      | .error e =>
        { result with steps := result.steps ++ [StepRecord.mk .deployment_applied false (some e)] }
    else result
  if p.hasContentContext then
    match env.generateContent with
    | .ok _ =>
      { result with steps := result.steps ++ [StepRecord.mk .content_generated true none] }
    | .error e =>
      { result with steps := result.steps ++ [StepRecord.mk .content_generated false (some e)] }
  else result

/-- Conditions under which a run reaches the domain-mapping step: the
config check and every earlier external call succeed (with the registration
arc applicable only when requested). -/
def reachesMapping (p : Params) (env : WorkflowEnv) : Prop :=
  env.configValid = true ∧
  (p.registerNewDomain = true →
    (∃ av, env.checkDomain = .ok av ∧ av.available = true) ∧
    env.registerDomain = .ok ()) ∧
  (∃ site, env.createSite = .ok site) ∧
  env.waitForSiteReady = .ok ()

/-- Canonical order of the recorded step ids, §4.3: the registration and
nameserver arcs appear when `reg` is set, the deployment / content stages
when the corresponding context is provided. -/
def canonicalOrder (reg hasDep hasCont : Bool) : List StepId :=
  [.config_validated]
    ++ (if reg then [.domain_checked, .domain_registered] else [])
    ++ [.site_created, .site_ready, .domain_mapped, .cloudflare_zone_created,
        .dns_records_set]
    ++ (if reg then [.nameservers_updated] else [])
    ++ [.security_configured, .ssl_pending]
    ++ (if hasDep then [.deployment_applied] else [])
    ++ (if hasCont then [.content_generated] else [])

/-- Canonical order as claim C4 reads it: only the registration arcs are
conditional; the deployment and content stages are always part of the
order. -/
def claimCanonicalOrder (reg : Bool) : List StepId := canonicalOrder reg true true

/-- Position of a step id in the full canonical order. -/
def stepRank (s : StepId) : Nat := (canonicalOrder true true true).indexOf s

/-- Environment in which every external call succeeds; the map-domain
response carries one A record. -/
def envOk : WorkflowEnv :=
  { configValid := true
    checkDomain := .ok { available := true, premium := false }
    registerDomain := .ok ()
    createSite := .ok { id := 7, wp_url := "https://s1.host", wp_username := "u", wp_password := "p" }
    waitForSiteReady := .ok ()
    mapDomain := .ok { a_records := some ["1.2.3.4"], dns_records := none }
    getOrCreateZone := .ok { id := "z1", name_servers := ["ns1", "ns2"] }
    setARecords := .ok ()
    setCustomNameservers := .ok ()
    configureSecurity := .ok ()
    applyDeployment := .ok ()
    generateContent := .ok () }

/-- Like `envOk` but the map-domain response carries no A-record field at
all (neither `a_records` nor `dns_records`). -/
def envNoARecordInfo : WorkflowEnv :=
  { envOk with mapDomain := .ok { a_records := none, dns_records := none } }

/-- Like `envOk` but the map-domain response has `a_records` present and
empty (the S2 scenario). -/
def envEmptyARecords : WorkflowEnv :=
  { envOk with mapDomain := .ok { a_records := some [], dns_records := none } }

/-- Like `envOk` but applying the deployment context fails. -/
def envDeployFails : WorkflowEnv :=
  { envOk with applyDeployment := .error "customizer exploded" }

/-- Base parameters: alpha.example without registration. -/
def paramsNoReg : Params := { domain := "alpha.example", registerNewDomain := false }

/-- Base parameters: alpha.example with registration. -/
def paramsReg : Params := { domain := "alpha.example", registerNewDomain := true }

/-- Context parameters: no registration, both contexts provided. -/
def ctxBoth : CtxParams :=
  { base := paramsNoReg, hasDeploymentContext := true, hasContentContext := true }

/-- Context parameters: no registration, only a content context provided. -/
def ctxContentOnly : CtxParams :=
  { base := paramsNoReg, hasDeploymentContext := false, hasContentContext := true }

/-- Context parameters: registration requested, both contexts provided. -/
def ctxRegBoth : CtxParams :=
  { base := paramsReg, hasDeploymentContext := true, hasContentContext := true }

end Workflow

namespace Schemas

/-! Embedding of the deployment and content context schemas:
src/unnamed/part_009 (deployment) and src/unnamed/part_008 (content), with
the shared constants of src/unnamed/part_005.  Optional object fields are
`Option` values; an absent, undefined or null JS value is `none`
(JavaScript object spread is modelled per known key). -/

/-- DEFAULTS.FAVICON_URL from constants. -/
def FAVICON_URL : String :=
  "https://flexify.themerex.net/wp-content/uploads/2025/07/cropped-favicon-32x32.jpg"

/-- DEFAULTS.LANGUAGE from constants. -/
def DEFAULT_LANGUAGE : String := "en"

/-- DEFAULTS.TONE from constants. -/
def DEFAULT_TONE : String := "professional"

/-- JS truthiness of an optional string (`none`, null and the empty string
are falsy). -/
def truthyStr : Option String → Bool
  | none => false
  | some s => !(s = "")

/-- Key-wise object spread for one key: the source value wins when the key
is present. -/
def spreadOpt (b s : Option α) : Option α :=
  match s with
  | some v => some v
  | none => b

/-- JS `a || b` on optional object/array values (a present array or object
is truthy, also when empty). -/
def jsOrOpt (a b : Option α) : Option α :=
  match a with
  | some v => some v
  | none => b

/-- JS `a || b` on optional string values (the empty string falls
through). -/
def jsOrStr (a b : Option String) : Option String :=
  if truthyStr a then a else b

/-- JS `a || d` where d is a string default. -/
def jsOrStrD (a : Option String) (d : String) : String :=
  match a with
  | some s => if s = "" then d else s
  | none => d

/-- Hex digit test for the color pattern. -/
def isHexDigit (c : Char) : Bool :=
  (Char.ofNat 48 ≤ c && c ≤ Char.ofNat 57) ||
  (Char.ofNat 97 ≤ c && c ≤ Char.ofNat 102) ||
  (Char.ofNat 65 ≤ c && c ≤ Char.ofNat 70)

/-- The color pattern of the schema: # followed by six hex digits. -/
def isHexColor (s : String) : Bool :=
  match s.data with
  | [] => false
  | c :: rest => c = Char.ofNat 35 && rest.length = 6 && rest.all isHexDigit

/-- `template` object of a deployment context. -/
structure Template where
  slug : Option String
  skin : Option String
  variation : Option String
deriving DecidableEq, Repr

/-- One `plugins` entry (the free-form config map is opaque key/value
pairs). -/
structure Plugin where
  slug : Option String
  activate : Option Bool
  config : Option (List (String × String))
deriving DecidableEq, Repr

/-- `demoContent` object (the JS key `import` is spelled `importFlag`). -/
structure DemoContent where
  importFlag : Option Bool
  pages : Option (List String)
  contentSlots : Option (List (String × String))
deriving DecidableEq, Repr

/-- `branding` object of a deployment context. -/
structure Branding where
  primaryColor : Option String
  secondaryColor : Option String
  logoUrl : Option String
  faviconUrl : Option String
deriving DecidableEq, Repr

/-- A deployment context; every top-level key may be absent. -/
structure DeploymentContext where
  template : Option Template
  plugins : Option (List Plugin)
  demoContent : Option DemoContent
  branding : Option Branding
  features : Option (List String)
deriving DecidableEq, Repr

/-- Result shape of the validators. -/
structure ValidationResult where
  valid : Bool
  errors : List String
deriving DecidableEq, Repr

/-- `validateDeploymentContext(context)`.  In this typed embedding a present
`plugins`/`features` value is always an array, so the two must-be-array
errors cannot fire and are omitted. -/
def validateDeploymentContext (context : Option DeploymentContext) :
    ValidationResult :=
  match context with
  | none => { valid := false, errors := ["Deployment context is required"] }
  | some ctx =>
    let templateErrors :=
      match ctx.template with
      | none => ["Template configuration is required"]
      | some t => if !truthyStr t.slug then ["Template slug is required"] else []
    let brandingErrors :=
      match ctx.branding with
      | none => []
      | some b =>
        (if truthyStr b.primaryColor && !isHexColor (b.primaryColor.getD "") then
          ["Primary color must be a valid hex color (e.g., #667eea)"] else [])
        ++ (if truthyStr b.secondaryColor && !isHexColor (b.secondaryColor.getD "") then
          ["Secondary color must be a valid hex color"] else [])
    let errors := templateErrors ++ brandingErrors
    { valid := errors.isEmpty, errors := errors }

/-- Spread-merge of the two `template` objects; the result is always an
object, even when both inputs are absent. -/
def mergeTemplate (b s : Option Template) : Template :=
  { slug := spreadOpt (b.bind Template.slug) (s.bind Template.slug)
    skin := spreadOpt (b.bind Template.skin) (s.bind Template.skin)
    variation := spreadOpt (b.bind Template.variation) (s.bind Template.variation) }

/-- Spread-merge of the two `demoContent` objects. -/
def mergeDemoContent (b s : Option DemoContent) : DemoContent :=
  { importFlag := spreadOpt (b.bind DemoContent.importFlag) (s.bind DemoContent.importFlag)
    pages := spreadOpt (b.bind DemoContent.pages) (s.bind DemoContent.pages)
    contentSlots := spreadOpt (b.bind DemoContent.contentSlots) (s.bind DemoContent.contentSlots) }

/-- Spread-merge of the two `branding` objects with the favicon fallback
chain `source || base || DEFAULTS.FAVICON_URL`. -/
def mergeBranding (b s : Option Branding) : Branding :=
  { primaryColor := spreadOpt (b.bind Branding.primaryColor) (s.bind Branding.primaryColor)
    secondaryColor := spreadOpt (b.bind Branding.secondaryColor) (s.bind Branding.secondaryColor)
    logoUrl := spreadOpt (b.bind Branding.logoUrl) (s.bind Branding.logoUrl)
    faviconUrl := jsOrStr (s.bind Branding.faviconUrl)
      (jsOrStr (b.bind Branding.faviconUrl) (some FAVICON_URL)) }

/-- `mergeDeploymentContexts(base, source)`. -/
def mergeDeploymentContexts (base source : DeploymentContext) : DeploymentContext :=
  { template := some (mergeTemplate base.template source.template)
    plugins := jsOrOpt source.plugins base.plugins
    demoContent := some (mergeDemoContent base.demoContent source.demoContent)
    branding := some (mergeBranding base.branding source.branding)
    features := jsOrOpt source.features base.features }

/-- One section entry of a page definition (only its `type` key is ever
written). -/
structure PageSection where
  type : String
deriving DecidableEq, Repr

/-- One `pages` entry of a content context.  `title` is optional: the
scrape mapping can leave it undefined. -/
structure PageDef where
  slug : String
  title : Option String
  sections : List PageSection
deriving DecidableEq, Repr

/-- `business.contactInfo` of a content context. -/
structure ContactInfo where
  phone : String
  email : String
  address : String
deriving DecidableEq, Repr

/-- `business` object of a content context. -/
structure BusinessInfo where
  name : String
  tagline : String
  industry : String
  services : List String
  targetAudience : String
  uniqueSellingPoints : List String
  location : String
  contactInfo : ContactInfo
deriving DecidableEq, Repr

/-- `language` object of a content context. -/
structure LanguageInfo where
  primary : String
  additional : List String
deriving DecidableEq, Repr

/-- `seo` object of a content context. -/
structure SeoInfo where
  metaTitle : String
  metaDescription : String
  keywords : List String
deriving DecidableEq, Repr

/-- A content context.  The sourceAnalysis / voiceInterview payloads are
opaque (no claim reads their contents), only their presence is tracked. -/
structure ContentContext where
  business : BusinessInfo
  language : LanguageInfo
  tone : String
  pages : List PageDef
  sourceAnalysis : Option Unit
  voiceInterview : Option Unit
  seo : SeoInfo
deriving DecidableEq, Repr

/-- Option bag of `createContentContext(options)`, keys as read by the
function. -/
structure ContentOptions where
  businessName : Option String
  tagline : Option String
  industry : Option String
  services : Option (List String)
  targetAudience : Option String
  uniqueSellingPoints : Option (List String)
  location : Option String
  phone : Option String
  email : Option String
  address : Option String
  language : Option String
  additionalLanguages : Option (List String)
  tone : Option String
  pages : Option (List PageDef)
  sourceAnalysis : Option Unit
  voiceInterview : Option Unit
  metaTitle : Option String
  metaDescription : Option String
  keywords : Option (List String)
deriving DecidableEq, Repr

/-- The empty option bag (`createContentContext()`). -/
def emptyContentOptions : ContentOptions :=
  { businessName := none, tagline := none, industry := none, services := none
    targetAudience := none, uniqueSellingPoints := none, location := none
    phone := none, email := none, address := none, language := none
    additionalLanguages := none, tone := none, pages := none
    sourceAnalysis := none, voiceInterview := none, metaTitle := none
    metaDescription := none, keywords := none }

/-- The four-page default list hardcoded inside `createContentContext`. -/
def defaultContentPages : List PageDef :=
  [ { slug := "home", title := some "Home",
      sections := [{ type := "hero" }, { type := "features" }] },
    { slug := "about", title := some "About Us",
      sections := [{ type := "about" }, { type := "team" }] },
    { slug := "services", title := some "Services",
      sections := [{ type := "services" }] },
    { slug := "contact", title := some "Contact",
      sections := [{ type := "contact" }] } ]

/-- `createContentContext(options)`. -/
def createContentContext (o : ContentOptions) : ContentContext :=
  { business :=
    { name := jsOrStrD o.businessName ""
      tagline := jsOrStrD o.tagline ""
      industry := jsOrStrD o.industry ""
      services := o.services.getD []
      targetAudience := jsOrStrD o.targetAudience ""
      uniqueSellingPoints := o.uniqueSellingPoints.getD []
      location := jsOrStrD o.location ""
      contactInfo :=
      { phone := jsOrStrD o.phone ""
        email := jsOrStrD o.email ""
        address := jsOrStrD o.address "" } }
    language :=
    { primary := jsOrStrD o.language DEFAULT_LANGUAGE
      additional := o.additionalLanguages.getD [] }
    tone := jsOrStrD o.tone DEFAULT_TONE
    pages := o.pages.getD defaultContentPages
    sourceAnalysis := o.sourceAnalysis
    voiceInterview := o.voiceInterview
    seo :=
    { metaTitle := jsOrStrD o.metaTitle ""
      metaDescription := jsOrStrD o.metaDescription ""
      keywords := o.keywords.getD [] } }

/-- Partial `analysis.businessInfo` object spread over the default
business object. -/
structure BusinessPatch where
  name : Option String
  tagline : Option String
  industry : Option String
  services : Option (List String)
  targetAudience : Option String
  uniqueSellingPoints : Option (List String)
  location : Option String
  contactInfo : Option ContactInfo
deriving DecidableEq, Repr

/-- `{...context.business, ...analysis.businessInfo}`. -/
def applyBusinessPatch (b : BusinessInfo) (p : BusinessPatch) : BusinessInfo :=
  { name := p.name.getD b.name
    tagline := p.tagline.getD b.tagline
    industry := p.industry.getD b.industry
    services := p.services.getD b.services
    targetAudience := p.targetAudience.getD b.targetAudience
    uniqueSellingPoints := p.uniqueSellingPoints.getD b.uniqueSellingPoints
    location := p.location.getD b.location
    contactInfo := p.contactInfo.getD b.contactInfo }

/-- One page of `analysis.siteStructure.pages`. -/
structure ScrapedPage where
  slug : Option String
  path : Option String
  title : Option String
  name : Option String
  sections : Option (List PageSection)
deriving DecidableEq, Repr

/-- `analysis.siteStructure`. -/
structure SiteStructure where
  pages : Option (List ScrapedPage)
deriving DecidableEq, Repr

/-- Partial `analysis.seo` object. -/
structure SeoPatch where
  title : Option String
  description : Option String
  keywords : Option (List String)
deriving DecidableEq, Repr

/-- AI analysis input of `buildContentContextFromScrape` (fields the
function reads). -/
structure Analysis where
  businessInfo : Option BusinessPatch
  siteStructure : Option SiteStructure
  brandElements : Option Unit
  seo : Option SeoPatch
deriving DecidableEq, Repr

/-- Scraped data input (its content payload is only stored opaquely). -/
structure ScrapedData where
  content : Option Unit
deriving DecidableEq, Repr

/-- `page.path?.replace(/^\//, "")`: drop one leading slash. -/
def stripLeadingSlash (s : String) : String :=
  match s.data with
  | c :: rest => if c = Char.ofNat 47 then String.mk rest else s
  | [] => s

/-- Mapping of one scraped page to a page definition:
slug `page.slug || stripped page.path || "page"`, title
`page.title || page.name`, sections `page.sections || []`. -/
def scrapedPageToPageDef (page : ScrapedPage) : PageDef :=
  { slug := jsOrStrD page.slug (jsOrStrD (page.path.map stripLeadingSlash) "page")
    title := jsOrStr page.title page.name
    sections := page.sections.getD [] }

/-- `buildContentContextFromScrape(scrapedData, analysis)`. -/
def buildContentContextFromScrape (scraped : ScrapedData) (analysis : Analysis) :
    ContentContext :=
  let ctx := createContentContext emptyContentOptions
  let ctx :=
    match analysis.businessInfo with
    | some p => { ctx with business := applyBusinessPatch ctx.business p }
    | none => ctx
  let ctx :=
    match analysis.siteStructure with
    | some st =>
      match st.pages with
      | some ps => { ctx with pages := ps.map scrapedPageToPageDef }
      | none => ctx
    | none => ctx
  let ctx := { ctx with sourceAnalysis := some () }
  match analysis.seo with
  | some sp =>
    { ctx with seo :=
      { metaTitle := jsOrStrD sp.title ctx.business.name
        metaDescription := jsOrStrD sp.description ""
        keywords := sp.keywords.getD [] } }
  | none => ctx

/-- An analysis with every field absent. -/
def emptyAnalysis : Analysis :=
  { businessInfo := none, siteStructure := none, brandElements := none, seo := none }

/-- Branding object with no faviconUrl. -/
def brandingNoFavicon : Branding :=
  { primaryColor := none, secondaryColor := none, logoUrl := none, faviconUrl := none }

/-- Branding object with an explicit faviconUrl. -/
def brandingWithFavicon : Branding :=
  { primaryColor := some "#667eea"
    secondaryColor := none
    logoUrl := none
    faviconUrl := some "https://x.test/fav.ico" }

/-- Demo-content object used by the merge fixtures. -/
def demoContentFixture : DemoContent :=
  { importFlag := some true, pages := some [], contentSlots := some [] }

/-- Valid deployment context whose branding lacks a faviconUrl. -/
def ctxNoFavicon : DeploymentContext :=
  { template := some { slug := some "flexify", skin := none, variation := none }
    plugins := some []
    demoContent := some demoContentFixture
    branding := some brandingNoFavicon
    features := some [] }

/-- Valid deployment context with an explicit faviconUrl. -/
def ctxWithFavicon : DeploymentContext :=
  { template := some { slug := some "flexify", skin := some "default", variation := none }
    plugins := some []
    demoContent := some demoContentFixture
    branding := some brandingWithFavicon
    features := some [] }

end Schemas

namespace Editor

/-! Embedding of the edit-session executor: `EditorService.parseActions`,
`EditorService.executeAction` and the action batch of
`EditorService.sendMessage` (`src/services/editor-service.js`).  Strings are
processed as character lists; JSON decoding of a block body is an oracle
parameter `decode` (`none` models a JSON.parse failure); the site REST
calls are a `WpOracle`.  Fuel-based recursions use fuel bounded by the
input length, which each step strictly decreases, so the bound is never
reached before the input is exhausted. -/

/-- Newline character. -/
def NL : Char := Char.ofNat 10

/-- The literal `:::action` opening the block pattern. -/
def patOpen : List Char := ":::action".data

/-- The literal newline-plus-`:::` closing the block pattern. -/
def patClose : List Char := "\n:::".data

/-- Split at the first occurrence of `pat`: returns the part before and the
part after (`s = pre ++ pat ++ post`). -/
def splitFirst (pat : List Char) : List Char → Option (List Char × List Char)
  | [] => if pat.isEmpty then some ([], []) else none
  | c :: cs =>
    if pat.isPrefixOf (c :: cs) then some ([], (c :: cs).drop pat.length)
    else
      match splitFirst pat cs with
      | some (pre, post) => some (c :: pre, post)
      | none => none

/-- Candidate amounts of input consumed by the greedy `\s*\n` of the block
pattern, longest first: every prefix length of the whitespace run `w` that
ends in a newline, in decreasing order. -/
def candidateKs (w : List Char) : List Nat :=
  (((List.range w.length).map (fun i => i + 1)).filter
    (fun k => w.getD (k - 1) (Char.ofNat 32) = NL)).reverse

/-- Backtracking over the candidate consumptions: for each `k` (longest
first) look for the closing `\n:::` in the remainder; the first success
yields the lazily captured body and the rest of the input. -/
def tryWithKs (t : List Char) : List Nat → Option (Nat × List Char × List Char)
  | [] => none
  | k :: ks =>
    match splitFirst patClose (t.drop k) with
    | some (cap, rest) => some (k, cap, rest)
    | none => tryWithKs t ks

/-- Match of the block regex anchored at the head of `s`: on success
returns the full match text, the captured body and the remaining input. -/
def tryMatchAt (s : List Char) : Option (List Char × List Char × List Char) :=
  if patOpen.isPrefixOf s then
    let t := s.drop patOpen.length
    let w := t.takeWhile Char.isWhitespace
    match tryWithKs t (candidateKs w) with
    | some (k, cap, rest) => some (patOpen ++ t.take k ++ cap ++ patClose, cap, rest)
    | none => none
  else none

/-- Scan for the first block match in `s`: returns the text before the
match, the full match text, the captured body and the rest. -/
def findBlock : List Char → Option (List Char × List Char × List Char × List Char)
  | [] => none
  | c :: cs =>
    match tryMatchAt (c :: cs) with
    | some (m0, cap, rest) => some ([], m0, cap, rest)
    | none =>
      match findBlock cs with
      | some (pre, m0, cap, rest) => some (c :: pre, m0, cap, rest)
      | none => none

/-- All block matches of the global regex, left to right (full match text
and captured body).  Every match is at least fourteen characters long, so
the fuel bound `s.length` is never the limiting factor. -/
def collectBlocksAux : Nat → List Char → List (List Char × List Char)
  | 0, _ => []
  | fuel + 1, s =>
    match findBlock s with
    | none => []
    | some (_, m0, cap, rest) => (m0, cap) :: collectBlocksAux fuel rest

/-- All block matches of `s`. -/
def collectBlocks (s : List Char) : List (List Char × List Char) :=
  collectBlocksAux s.length s

/-- Remove the first occurrence of `pat` (JS `String.replace` with a string
pattern and empty replacement). -/
def removeFirstOccurrence (s pat : List Char) : List Char :=
  match splitFirst pat s with
  | some (pre, post) => pre ++ post
  | none => s

/-- Collapse every run of three or more newlines to exactly two (the
global replace of the newline-run pattern). -/
def collapseNlAux : Nat → List Char → List Char
  | 0, s => s
  | fuel + 1, s =>
    match s with
    | [] => []
    | c :: cs =>
      if c = NL then
        let nls := cs.takeWhile (fun d => d = NL)
        let r := cs.drop nls.length
        (if nls.length + 1 ≥ 3 then [NL, NL] else c :: nls) ++ collapseNlAux fuel r
      else c :: collapseNlAux fuel cs

/-- Collapse newline runs in `s`. -/
def collapseNewlines (s : List Char) : List Char := collapseNlAux s.length s

/-- JS `trim`: drop whitespace from both ends. -/
def trimChars (s : List Char) : List Char :=
  ((s.dropWhile Char.isWhitespace).reverse.dropWhile Char.isWhitespace).reverse

/-- A decoded action: its `type` discriminator and the rest of the JSON
payload, kept opaque. -/
structure Action where
  type : String
  payload : String
deriving DecidableEq, Repr

/-- The raw removal step of `parseActions`: the reply with each block match
deleted (first occurrence each), before newline collapsing and trimming. -/
def removeActionBlocks (responseText : String) : List Char :=
  (collectBlocks responseText.data).foldl
    (fun d b => removeFirstOccurrence d b.1) responseText.data

/-- `EditorService.parseActions(responseText)`: collect the block matches,
decode each trimmed body (a failed decode drops the action but the block
text is removed from the display text regardless), then clean up the
display text. -/
def parseActions (decode : String → Option Action) (responseText : String) :
    String × List Action :=
  let blocks := collectBlocks responseText.data
  let displayText := trimChars (collapseNewlines (removeActionBlocks responseText))
  let actions := blocks.filterMap (fun b => decode (String.mk (trimChars b.2)))
  (String.mk displayText, actions)

/-- Oracle giving the outcome of each site REST call, by action kind. -/
structure WpOracle where
  updatePage : String → Except String String
  updateSettings : String → Except String String
  createPage : String → Except String String

/-- `EditorService.executeAction(wp, action)`: dispatch on the type
discriminator; an unknown type throws. -/
def executeAction (wp : WpOracle) (action : Action) : Except String String :=
  if action.type = "update_page" then wp.updatePage action.payload
  else if action.type = "update_settings" then wp.updateSettings action.payload
  else if action.type = "create_page" then wp.createPage action.payload
  else .error ("Unknown action type: " ++ action.type)

/-- One entry of the returned `changes` list (the spread of the action plus
outcome fields). -/
structure AppliedChange where
  action : Action
  success : Bool
  result : Option String
  error : Option String
deriving DecidableEq, Repr

/-- The reply-processing tail of `EditorService.sendMessage`: parse the AI
reply, execute each action in order collecting per-action results, and
return the display text with the applied changes.  `hasCredentials` models
the site.wp_url/wp_username/wp_password guard; message persistence is
database glue and is omitted. -/
def sendMessage (decode : String → Option Action) (wp : WpOracle)
    (hasCredentials : Bool) (aiReply : String) : String × List AppliedChange :=
  let parsed := parseActions decode aiReply
  let appliedChanges :=
    if parsed.2.length > 0 && hasCredentials then
      parsed.2.map (fun a =>
        match executeAction wp a with
        | .ok r => { action := a, success := true, result := some r, error := none }
        | .error e => { action := a, success := false, result := none, error := some e })
    else []
  (parsed.1, appliedChanges)

/-- Decoder fixture for the concrete scenarios: three known block bodies. -/
def decodeFixture : String → Option Action :=
  fun sIn =>
    if sIn = "u" then some { type := "update_page", payload := "u" }
    else if sIn = "c" then some { type := "create_page", payload := "c" }
    else if sIn = "z" then some { type := "zap_page", payload := "z" }
    else none

/-- Site oracle fixture: update succeeds, create fails upstream. -/
def wpFixture : WpOracle :=
  { updatePage := fun _ => .ok "updated"
    updateSettings := fun _ => .ok "settings"
    createPage := fun _ => .error "Request failed with status code 500" }

/-- Reply fixture with three blocks: a succeeding update, a failing create
and an unknown action type. -/
def replyFixture : String :=
  "Updating your home and creating a pricing page.\n:::action\nu\n:::\n:::action\nc\n:::\n:::action\nz\n:::"

/-- Reply fixture whose removal leaves a trailing newline run. -/
def replyTrailing : String := "Done.\n\n\n:::action\nu\n:::"

/-- The applied change produced for the unknown action type of the reply
fixture. -/
def changeUnknown : AppliedChange :=
  { action := { type := "zap_page", payload := "z" }
    success := false
    result := none
    error := some "Unknown action type: zap_page" }

end Editor

end WordToSite

namespace WordToSite

namespace Proxy

/-- C1: for a chat request presenting a valid active API key, monthly usage
at or above the monthly token limit makes the proxy answer 429 with a usage
snapshot whose remaining field is 0, calling no upstream provider and
appending no log row; usage strictly below the limit passes the quota gate. -/
theorem c1_quota_gate (validateKey : String → Option ProxySite)
    (monthlyUsage : Nat → Nat) (providers : ProviderOracle)
    (getAllowedModels : String → List String) (body : ChatBody)
    (h : String) (site : ProxySite)
    (hPrefix : Str.startsWith h "Bearer wts_" = true)
    (hSite : validateKey (Str.drop h 7) = some site) :
    (site.monthly_token_limit ≤ monthlyUsage site.id →
      chatEndpoint (some h) validateKey monthlyUsage providers getAllowedModels body =
        (.failure 429 "quota_exceeded"
          (some (checkQuota (monthlyUsage site.id) site.monthly_token_limit)), false, []) ∧
      (checkQuota (monthlyUsage site.id) site.monthly_token_limit).remaining = 0) ∧
    (monthlyUsage site.id < site.monthly_token_limit →
      createProxyAuth (some h) validateKey monthlyUsage =
        .authorized site (checkQuota (monthlyUsage site.id) site.monthly_token_limit)) := by
  constructor
  · intro hle
    refine ⟨?_, ?_⟩
    · simp [chatEndpoint, createProxyAuth, hPrefix, hSite, checkQuota, Nat.not_lt.mpr hle]
    · simp [checkQuota, Nat.sub_eq_zero_of_le hle]
  · intro hlt
    simp [createProxyAuth, hPrefix, hSite, checkQuota, hlt]

/-- Witness for C1 at a concrete over-quota input (used 120 of limit 100). -/
theorem c1_quota_gate_witness :
    (Str.startsWith "Bearer wts_testkey" "Bearer wts_" = true) ∧
    (validateKey0 (Str.drop "Bearer wts_testkey" 7) = some site0) ∧
    (100 ≤ 120) ∧
    chatEndpoint (some "Bearer wts_testkey") validateKey0 (fun _ => 120) providersErr
        (fun _ => []) bodyGpt =
      (.failure 429 "quota_exceeded"
        (some { allowed := false, used := 120, limit := 100, remaining := 0 }), false, []) := by
  refine ⟨by decide, by decide, by decide, ?_⟩
  have h := (c1_quota_gate validateKey0 (fun _ => 120) providersErr (fun _ => [])
    bodyGpt "Bearer wts_testkey" site0 (by decide) (by decide)).1 (by decide)
  exact h.1.trans (by decide)

/-- C2 counterexample: an authenticated, quota-passing chat request for the
model `llama-3-70b` (none of the three routable prefixes; empty allowed list) is
answered 502 upstream_error, not 400 as the claim states. -/
theorem c2_counterexample :
    (chatEndpoint (some "Bearer wts_testkey") validateKey0 (fun _ => 0) providersErr
        (fun _ => []) bodyLlama).1 =
      .failure 502 "upstream_error" none ∧
    (chatEndpoint (some "Bearer wts_testkey") validateKey0 (fun _ => 0) providersErr
        (fun _ => []) bodyLlama).1.status ≠ 400 := by
  constructor
  · decide
  · decide

/-- C2 amended: an authenticated chat request whose model starts with none of
the prefixes gpt-, gemini-, claude- and which passes the allowed-model gate of the tier is
answered 502 with type upstream_error; no provider is dispatched and the
appended log row records status 502 with the unsupported-model message. -/
theorem c2_unsupported_model (validateKey : String → Option ProxySite)
    (monthlyUsage : Nat → Nat) (providers : ProviderOracle)
    (getAllowedModels : String → List String) (body : ChatBody)
    (h : String) (site : ProxySite) (m : String) (msgs : List ChatMessage)
    (hPrefix : Str.startsWith h "Bearer wts_" = true)
    (hSite : validateKey (Str.drop h 7) = some site)
    (hQuota : monthlyUsage site.id < site.monthly_token_limit)
    (hm : body.model = some m) (hmne : m ≠ "")
    (hmsgs : body.messages = some msgs)
    (hp1 : Str.startsWith m "gpt-" = false)
    (hp2 : Str.startsWith m "gemini-" = false)
    (hp3 : Str.startsWith m "claude-" = false)
    (hAllow : getAllowedModels site.subscription_tier = [] ∨
      m ∈ getAllowedModels site.subscription_tier) :
    chatEndpoint (some h) validateKey monthlyUsage providers getAllowedModels body =
      (.failure 502 "upstream_error" none, false,
        [{ provider := errProvider (some m)
           model := m
           endpoint := "/v1/chat/completions"
           total_tokens := 0
           response_status := 502
           error_message :=
             some ("Unsupported model: " ++ m ++ ". Use gpt-*, gemini-*, or claude-* models.") }]) := by
  have hgate : ¬((getAllowedModels site.subscription_tier).length > 0 ∧
      ¬(m ∈ getAllowedModels site.subscription_tier)) := by
    rcases hAllow with hA | hA
    · simp [hA]
    · simp [hA]
  simp [chatEndpoint, createProxyAuth, hPrefix, hSite, checkQuota, hQuota,
    handleChatCompletions, hm, hmsgs, hmne, forwardToProvider, hp1, hp2, hp3, hgate]

/-- Witness for C2 amended at the concrete model `llama-3-70b`. -/
theorem c2_unsupported_model_witness :
    chatEndpoint (some "Bearer wts_testkey") validateKey0 (fun _ => 0) providersErr
        (fun _ => []) bodyLlama =
      (.failure 502 "upstream_error" none, false,
        [{ provider := "llama"
           model := "llama-3-70b"
           endpoint := "/v1/chat/completions"
           total_tokens := 0
           response_status := 502
           error_message :=
             some "Unsupported model: llama-3-70b. Use gpt-*, gemini-*, or claude-* models." }]) := by
  have h := c2_unsupported_model validateKey0 (fun _ => 0) providersErr (fun _ => [])
    bodyLlama "Bearer wts_testkey" site0 "llama-3-70b"
    [{ role := "user", content := "hi" }]
    (by decide) (by decide) (by decide) (by decide) (by decide) (by decide)
    (by decide) (by decide) (by decide) (Or.inl (by decide))
  exact h.trans (by decide)

/-- C3 counterexample: with the empty allowed-model list (as returned for an
unknown tier) a model outside the list is not answered 403 — the gate is
skipped, the provider is dispatched and the call succeeds with 200. -/
theorem c3_counterexample :
    ("gpt-4o-mini" ∉ ([] : List String)) ∧
    (chatEndpoint (some "Bearer wts_testkey") validateKey0 (fun _ => 0) providersOk
        (fun _ => []) bodyGpt).1.errTypeOpt ≠ some "model_not_allowed" ∧
    (chatEndpoint (some "Bearer wts_testkey") validateKey0 (fun _ => 0) providersOk
        (fun _ => []) bodyGpt).1.status = 200 ∧
    (chatEndpoint (some "Bearer wts_testkey") validateKey0 (fun _ => 0) providersOk
        (fun _ => []) bodyGpt).2.1 = true := by
  refine ⟨by decide, by decide, by decide, by decide⟩

/-- C3 amended: for an authenticated, quota-passing chat request, when the
allowed list of the tier is non-empty and the requested model is not in it,
the proxy answers 403 model_not_allowed with no upstream call and no log
row; the empty allowed list disables the gate, so no request is rejected
with model_not_allowed. -/
theorem c3_model_policy (validateKey : String → Option ProxySite)
    (monthlyUsage : Nat → Nat) (providers : ProviderOracle)
    (getAllowedModels : String → List String) (body : ChatBody)
    (h : String) (site : ProxySite) (m : String) (msgs : List ChatMessage)
    (hPrefix : Str.startsWith h "Bearer wts_" = true)
    (hSite : validateKey (Str.drop h 7) = some site)
    (hQuota : monthlyUsage site.id < site.monthly_token_limit)
    (hm : body.model = some m) (hmne : m ≠ "")
    (hmsgs : body.messages = some msgs) :
    (getAllowedModels site.subscription_tier ≠ [] →
      m ∉ getAllowedModels site.subscription_tier →
      chatEndpoint (some h) validateKey monthlyUsage providers getAllowedModels body =
        (.failure 403 "model_not_allowed" none, false, [])) ∧
    (getAllowedModels site.subscription_tier = [] →
      (chatEndpoint (some h) validateKey monthlyUsage providers getAllowedModels
        body).1.errTypeOpt ≠ some "model_not_allowed") := by
  constructor
  · intro hne hnotin
    have hlen : (getAllowedModels site.subscription_tier).length > 0 :=
      List.length_pos.mpr hne
    simp [chatEndpoint, createProxyAuth, hPrefix, hSite, checkQuota, hQuota,
      handleChatCompletions, hm, hmsgs, hmne, hlen, hnotin]
  · intro hempty
    simp [chatEndpoint, createProxyAuth, hPrefix, hSite, checkQuota, hQuota,
      handleChatCompletions, hm, hmsgs, hmne, hempty]
    rcases hf : forwardToProvider providers m body with ⟨res, called⟩
    cases res <;> simp [ApiResponse.errTypeOpt]

/-- Witness for C3 amended: free tier allows only gemini-2.0-flash, the
request asks for gpt-4o-mini and is rejected 403 with no upstream call. -/
theorem c3_model_policy_witness :
    chatEndpoint (some "Bearer wts_testkey") validateKey0 (fun _ => 0) providersOk
        (fun _ => ["gemini-2.0-flash"]) bodyGpt =
      (.failure 403 "model_not_allowed" none, false, []) := by
  exact (c3_model_policy validateKey0 (fun _ => 0) providersOk
    (fun _ => ["gemini-2.0-flash"]) bodyGpt "Bearer wts_testkey" site0 "gpt-4o-mini"
    [{ role := "user", content := "hi" }]
    (by decide) (by decide) (by decide) (by decide) (by decide) (by decide)).1
    (by decide) (by decide)

/-- C10: the quota gate lives in the shared auth middleware, so an
over-quota site receives 429 from every authenticated proxy endpoint —
POST /v1/chat/completions, GET /v1/models and GET /v1/usage alike. -/
theorem c10_quota_gate_shared (validateKey : String → Option ProxySite)
    (monthlyUsage : Nat → Nat) (providers : ProviderOracle)
    (getAllowedModels : String → List String) (body : ChatBody)
    (h : String) (site : ProxySite)
    (hPrefix : Str.startsWith h "Bearer wts_" = true)
    (hSite : validateKey (Str.drop h 7) = some site)
    (hOver : site.monthly_token_limit ≤ monthlyUsage site.id) :
    (chatEndpoint (some h) validateKey monthlyUsage providers getAllowedModels
      body).1.status = 429 ∧
    (modelsEndpoint (some h) validateKey monthlyUsage getAllowedModels).status = 429 ∧
    (usageEndpoint (some h) validateKey monthlyUsage).status = 429 := by
  refine ⟨?_, ?_, ?_⟩ <;>
    simp [chatEndpoint, modelsEndpoint, usageEndpoint, createProxyAuth, hPrefix,
      hSite, checkQuota, Nat.not_lt.mpr hOver, ApiResponse.status]

/-- Witness for C10 at the concrete over-quota site (used 120 of 100). -/
theorem c10_quota_gate_shared_witness :
    (chatEndpoint (some "Bearer wts_testkey") validateKey0 (fun _ => 120) providersOk
      (fun _ => []) bodyGpt).1.status = 429 ∧
    (modelsEndpoint (some "Bearer wts_testkey") validateKey0 (fun _ => 120)
      (fun _ => [])).status = 429 ∧
    (usageEndpoint (some "Bearer wts_testkey") validateKey0 (fun _ => 120)).status = 429 := by
  exact c10_quota_gate_shared validateKey0 (fun _ => 120) providersOk (fun _ => [])
    bodyGpt "Bearer wts_testkey" site0 (by decide) (by decide) (by decide)

end Proxy

end WordToSite

namespace WordToSite

namespace Workflow

/-- Every base run records a take-prefix of the base canonical order; a
successful run records the whole of it with no failedAtStep; a failed run
has failedAtStep equal to the last recorded step id. -/
theorem execute_steps_take (p : Params) (env : WorkflowEnv) :
    ∃ n, (execute p env).steps.map StepRecord.step =
        (canonicalOrder p.registerNewDomain false false).take n ∧
      ((execute p env).success = true →
        (execute p env).steps.map StepRecord.step =
          canonicalOrder p.registerNewDomain false false ∧
        (execute p env).failedAtStep = none) ∧
      (∀ K, (execute p env).failedAtStep = some K →
        ((execute p env).steps.map StepRecord.step).getLast? = some K) := by
  obtain ⟨cv, cd, rd, cs, wr, md, zc, sa, ns, sec, ad, gc⟩ := env
  obtain ⟨dom, reg⟩ := p
  cases cv
  case false => refine ⟨0, ?_, ?_, ?_⟩ <;> simp [execute, mkFail]
  case true =>
    cases reg
    case false =>
      cases cs with
      | error e => refine ⟨1, ?_, ?_, ?_⟩ <;> simp [execute, mkFail, canonicalOrder]
      | ok site =>
        cases wr with
        | error e => refine ⟨2, ?_, ?_, ?_⟩ <;> simp [execute, mkFail, canonicalOrder]
        | ok u =>
          cases md with
          | error e => refine ⟨3, ?_, ?_, ?_⟩ <;> simp [execute, mkFail, canonicalOrder]
          | ok resp =>
            by_cases hA : (extractARecords resp).length = 0
            · refine ⟨4, ?_, ?_, ?_⟩ <;> simp [execute, mkFail, canonicalOrder, hA]
            · cases zc with
              | error e => refine ⟨4, ?_, ?_, ?_⟩ <;> simp [execute, mkFail, canonicalOrder, hA]
              | ok zone =>
                cases sa with
                | error e => refine ⟨5, ?_, ?_, ?_⟩ <;> simp [execute, mkFail, canonicalOrder, hA]
                | ok u2 =>
                  cases sec with
                  | error e =>
                    refine ⟨6, ?_, ?_, ?_⟩ <;> simp [execute, mkFail, canonicalOrder, hA]
                  | ok u3 =>
                    refine ⟨8, ?_, ?_, ?_⟩ <;> simp [execute, mkFail, canonicalOrder, hA]
    case true =>
      cases cd with
      | error e => refine ⟨1, ?_, ?_, ?_⟩ <;> simp [execute, mkFail, canonicalOrder]
      | ok av =>
        obtain ⟨avail, prem⟩ := av
        cases avail
        case false => refine ⟨2, ?_, ?_, ?_⟩ <;> simp [execute, mkFail, canonicalOrder]
        case true =>
          cases rd with
          | error e => refine ⟨2, ?_, ?_, ?_⟩ <;> simp [execute, mkFail, canonicalOrder]
          | ok u0 =>
            cases cs with
            | error e => refine ⟨3, ?_, ?_, ?_⟩ <;> simp [execute, mkFail, canonicalOrder]
            | ok site =>
              cases wr with
              | error e => refine ⟨4, ?_, ?_, ?_⟩ <;> simp [execute, mkFail, canonicalOrder]
              | ok u =>
                cases md with
                | error e => refine ⟨5, ?_, ?_, ?_⟩ <;> simp [execute, mkFail, canonicalOrder]
                | ok resp =>
                  by_cases hA : (extractARecords resp).length = 0
                  · refine ⟨6, ?_, ?_, ?_⟩ <;> simp [execute, mkFail, canonicalOrder, hA]
                  · cases zc with
                    | error e =>
                      refine ⟨6, ?_, ?_, ?_⟩ <;> simp [execute, mkFail, canonicalOrder, hA]
                    | ok zone =>
                      cases sa with
                      | error e =>
                        refine ⟨7, ?_, ?_, ?_⟩ <;> simp [execute, mkFail, canonicalOrder, hA]
                      | ok u2 =>
                        cases ns with
                        | error e =>
                          refine ⟨8, ?_, ?_, ?_⟩ <;> simp [execute, mkFail, canonicalOrder, hA]
                        | ok u4 =>
                          cases sec with
                          | error e =>
                            refine ⟨9, ?_, ?_, ?_⟩ <;>
                              simp [execute, mkFail, canonicalOrder, hA]
                          | ok u3 =>
                            refine ⟨11, ?_, ?_, ?_⟩ <;>
                              simp [execute, mkFail, canonicalOrder, hA]

/-- The canonical order with context stages is the base canonical order
with the deployment / content ids appended. -/
theorem canonicalOrder_extend (reg dep cont : Bool) :
    canonicalOrder reg dep cont =
      canonicalOrder reg false false
        ++ (if dep then [StepId.deployment_applied] else [])
        ++ (if cont then [StepId.content_generated] else []) := by
  cases reg <;> cases dep <;> cases cont <;> rfl

/-- Every canonical order is strictly increasing in `stepRank`. -/
theorem canonicalOrder_pairwise (reg dep cont : Bool) :
    (canonicalOrder reg dep cont).Pairwise (fun a b => stepRank a < stepRank b) := by
  cases reg <;> cases dep <;> cases cont <;> decide

/-- In a strictly rank-increasing list, every element has rank at most the
rank of the last element. -/
theorem rank_le_last {l : List StepId}
    (hl : l.Pairwise (fun a b => stepRank a < stepRank b)) :
    ∀ x ∈ l, ∀ K, l.getLast? = some K → stepRank x ≤ stepRank K := by
  induction l with
  | nil => intro x hx; simp at hx
  | cons a t ih =>
    intro x hx K hK
    cases t with
    | nil =>
      simp at hx hK
      subst hx
      subst hK
      exact le_refl _
    | cons b t2 =>
      rw [List.getLast?_cons_cons] at hK
      rcases List.mem_cons.mp hx with rfl | hx2
      · have hKmem : K ∈ b :: t2 := List.mem_of_getLast?_eq_some hK
        exact ((List.pairwise_cons.mp hl).1 K hKmem).le
      · exact ih (List.pairwise_cons.mp hl).2 x hx2 K hK

/-- C4 amended, part of the proof: the recorded ids of a full run form a
prefix of the canonical order with all applicable arcs. -/
theorem c4_canonical_order (p : CtxParams) (env : WorkflowEnv) :
    ((executeWithContexts p env).steps.map StepRecord.step <+:
      canonicalOrder p.base.registerNewDomain p.hasDeploymentContext
        p.hasContentContext) ∧
    (∀ K, (executeWithContexts p env).failedAtStep = some K →
      ∀ r ∈ (executeWithContexts p env).steps, stepRank r.step ≤ stepRank K) := by
  obtain ⟨n, hn, hsucc, hfail⟩ := execute_steps_take p.base env
  cases hs : (execute p.base env).success
  case false =>
    have hEW : executeWithContexts p env = execute p.base env := by
      simp [executeWithContexts, hs]
    rw [hEW]
    constructor
    · rw [canonicalOrder_extend p.base.registerNewDomain p.hasDeploymentContext
        p.hasContentContext, hn]
      exact (List.take_prefix _ _).trans
        ((List.prefix_append _ _).trans (List.prefix_append _ _))
    · intro K hK r hr
      have hlastK := hfail K hK
      have hpre : (execute p.base env).steps.map StepRecord.step <+:
          canonicalOrder p.base.registerNewDomain false false :=
        hn ▸ List.take_prefix _ _
      have hpw := List.Pairwise.sublist hpre.sublist
        (canonicalOrder_pairwise p.base.registerNewDomain false false)
      exact rank_le_last hpw _ (List.mem_map_of_mem StepRecord.step hr) K hlastK
  case true =>
    obtain ⟨hmap, hfs⟩ := hsucc hs
    have hmapfin : (executeWithContexts p env).steps.map StepRecord.step =
        canonicalOrder p.base.registerNewDomain p.hasDeploymentContext
          p.hasContentContext := by
      rw [canonicalOrder_extend p.base.registerNewDomain p.hasDeploymentContext
        p.hasContentContext]
      rcases had : env.applyDeployment with e | u <;>
        rcases hgc : env.generateContent with e2 | u2 <;>
        cases hdep : p.hasDeploymentContext <;>
        cases hcont : p.hasContentContext <;>
        simp [executeWithContexts, hs, had, hgc, hdep, hcont, hmap]
    have hfsfin : (executeWithContexts p env).failedAtStep = none := by
      rcases had : env.applyDeployment with e | u <;>
        rcases hgc : env.generateContent with e2 | u2 <;>
        cases hdep : p.hasDeploymentContext <;>
        cases hcont : p.hasContentContext <;>
        simp [executeWithContexts, hs, had, hgc, hdep, hcont, hfs]
    refine ⟨hmapfin ▸ List.prefix_rfl, ?_⟩
    intro K hK
    rw [hfsfin] at hK
    exact absurd hK (by simp)

/-- C4 counterexample: a run given only a content context records
`content_generated` directly after `ssl_pending`, so its step ids are not a
prefix of the canonical order in which only the registration arcs are
conditional (that order expects `deployment_applied` first). -/
theorem c4_counterexample :
    ¬ ((executeWithContexts ctxContentOnly envOk).steps.map StepRecord.step <+:
        claimCanonicalOrder ctxContentOnly.base.registerNewDomain) := by decide

/-- Witness for C4 amended at a failing concrete run (registration arc on,
mapped A-record list empty): the recorded ids are a canonical prefix and no
recorded step outranks the failure step `domain_mapped`. -/
theorem c4_canonical_order_witness :
    ((executeWithContexts ctxRegBoth envEmptyARecords).steps.map StepRecord.step <+:
      canonicalOrder true true true) ∧
    stepRank .site_ready ≤ stepRank .domain_mapped := by
  have h := c4_canonical_order ctxRegBoth envEmptyARecords
  exact ⟨h.1, h.2 .domain_mapped (by decide) (StepRecord.mk .site_ready true none)
    (by decide)⟩

/-- C5: once provisioning succeeded, a failure in the deployment or content
stage records a StepRecord with success=false carrying the error message,
the overall run still returns success=true, and the content stage is still
attempted after a deployment failure. -/
theorem c5_soft_failure (p : CtxParams) (env : WorkflowEnv)
    (hs : (execute p.base env).success = true) :
    (executeWithContexts p env).success = true ∧
    (∀ e, p.hasDeploymentContext = true → env.applyDeployment = .error e →
      StepRecord.mk .deployment_applied false (some e) ∈
        (executeWithContexts p env).steps) ∧
    (∀ e, p.hasContentContext = true → env.generateContent = .error e →
      StepRecord.mk .content_generated false (some e) ∈
        (executeWithContexts p env).steps) ∧
    (p.hasContentContext = true →
      ∃ r ∈ (executeWithContexts p env).steps, r.step = .content_generated) := by
  refine ⟨?_, ?_, ?_, ?_⟩
  case _ =>
    rcases had : env.applyDeployment with e | u <;>
      rcases hgc : env.generateContent with e2 | u2 <;>
      cases hdep : p.hasDeploymentContext <;>
      cases hcont : p.hasContentContext <;>
      simp [executeWithContexts, hs, had, hgc, hdep, hcont]
  case _ =>
    rcases had : env.applyDeployment with e | u <;>
      rcases hgc : env.generateContent with e2 | u2 <;>
      cases hdep : p.hasDeploymentContext <;>
      cases hcont : p.hasContentContext <;>
      simp [executeWithContexts, hs, had, hgc, hdep, hcont]
  case _ =>
    rcases had : env.applyDeployment with e | u <;>
      rcases hgc : env.generateContent with e2 | u2 <;>
      cases hdep : p.hasDeploymentContext <;>
      cases hcont : p.hasContentContext <;>
      simp [executeWithContexts, hs, had, hgc, hdep, hcont]
  case _ =>
    intro hcont
    rcases hgc : env.generateContent with e2 | u2
    · refine ⟨StepRecord.mk .content_generated false (some e2), ?_, rfl⟩
      rcases had : env.applyDeployment with e | u <;>
        cases hdep : p.hasDeploymentContext <;>
        simp [executeWithContexts, hs, had, hgc, hdep, hcont]
    · refine ⟨StepRecord.mk .content_generated true none, ?_, rfl⟩
      rcases had : env.applyDeployment with e | u <;>
        cases hdep : p.hasDeploymentContext <;>
        simp [executeWithContexts, hs, had, hgc, hdep, hcont]

/-- Witness for C5: provisioning succeeds, applying the deployment context
fails, yet the run succeeds, the failure is recorded, and the content stage
still runs. -/
theorem c5_soft_failure_witness :
    (executeWithContexts ctxBoth envDeployFails).success = true ∧
    StepRecord.mk .deployment_applied false (some "customizer exploded") ∈
      (executeWithContexts ctxBoth envDeployFails).steps ∧
    ∃ r ∈ (executeWithContexts ctxBoth envDeployFails).steps,
      r.step = .content_generated := by
  have h := c5_soft_failure ctxBoth envDeployFails (by decide)
  exact ⟨h.1, h.2.1 "customizer exploded" (by decide) (by rfl), h.2.2.2 (by decide)⟩

/-- C6 counterexample: a host response carrying no A-record information at
all (`a_records` and `dns_records` both absent) is not fatal — the
placeholder IPs are substituted and the run completes with success=true and
no error. -/
theorem c6_counterexample :
    extractARecords { a_records := none, dns_records := none } =
      ["123.123.123.123", "124.124.124.124"] ∧
    (execute paramsNoReg envNoARecordInfo).success = true ∧
    (execute paramsNoReg envNoARecordInfo).error = none := by
  refine ⟨by decide, by decide, by decide⟩

/-- C6 amended: when the run reaches domain mapping and the extracted
A-record list is empty (present-but-empty `a_records`, or `dns_records`
with no A entries), the run is fatal: `domain_mapped` is recorded with
success=true, the error contains the text Failed to get A record IPs, the
failure step is `domain_mapped`, and no later step is recorded. -/
theorem c6_empty_a_records (p : Params) (env : WorkflowEnv)
    (resp : HostMapResponse) (hreach : reachesMapping p env)
    (hmd : env.mapDomain = .ok resp)
    (hempty : extractARecords resp = []) :
    (execute p env).success = false ∧
    (execute p env).error = some noARecordsMsg ∧
    Str.containsSubstr noARecordsMsg "Failed to get A record IPs" = true ∧
    (execute p env).failedAtStep = some .domain_mapped ∧
    StepRecord.mk .domain_mapped true none ∈ (execute p env).steps ∧
    (∀ r ∈ (execute p env).steps, r.step ≠ .cloudflare_zone_created) := by
  obtain ⟨hcv, hreg, ⟨site, hcs⟩, hwr⟩ := hreach
  cases hr : p.registerNewDomain
  case false =>
    refine ⟨?_, ?_, by decide, ?_, ?_, ?_⟩ <;>
      simp [execute, hcv, hr, hcs, hwr, hmd, hempty, mkFail]
  case true =>
    obtain ⟨⟨av, hcd, hav⟩, hrd⟩ := hreg hr
    obtain ⟨avail, prem⟩ := av
    cases hav
    refine ⟨?_, ?_, by decide, ?_, ?_, ?_⟩ <;>
      simp [execute, hcv, hr, hcd, hrd, hcs, hwr, hmd, hempty, mkFail]

/-- Witness for C6 amended at the S2 scenario: registration requested,
`a_records` present but empty. -/
theorem c6_empty_a_records_witness :
    (execute paramsReg envEmptyARecords).success = false ∧
    (execute paramsReg envEmptyARecords).error = some noARecordsMsg ∧
    (execute paramsReg envEmptyARecords).failedAtStep = some .domain_mapped := by
  have h := c6_empty_a_records paramsReg envEmptyARecords
    { a_records := some [], dns_records := none }
    ⟨by rfl, fun _ => ⟨⟨{ available := true, premium := false }, by rfl, by rfl⟩, by rfl⟩,
      ⟨{ id := 7, wp_url := "https://s1.host", wp_username := "u", wp_password := "p" },
        by rfl⟩, by rfl⟩
    (by rfl) (by decide)
  exact ⟨h.1, h.2.1, h.2.2.2.1⟩

end Workflow

namespace Schemas

/-- Spreading a key with itself is the identity. -/
theorem spreadOpt_self (x : Option α) : spreadOpt x x = x := by
  cases x <;> rfl

/-- JS `x || x` is `x` for object/array values. -/
theorem jsOrOpt_self (x : Option α) : jsOrOpt x x = x := by
  cases x <;> rfl

/-- A truthy left operand short-circuits `||`. -/
theorem jsOrStr_truthy {a b : Option String} (h : truthyStr a = true) :
    jsOrStr a b = a := by
  simp [jsOrStr, h]

/-- C8 counterexample: a deployment context that validates (template with
slug present) but has a branding object without faviconUrl is not a fixed
point of the diagonal merge — merging forces faviconUrl to the default. -/
theorem c8_counterexample :
    (validateDeploymentContext (some ctxNoFavicon)).valid = true ∧
    mergeDeploymentContexts ctxNoFavicon ctxNoFavicon ≠ ctxNoFavicon ∧
    (mergeDeploymentContexts ctxNoFavicon ctxNoFavicon).branding =
      some { primaryColor := none, secondaryColor := none, logoUrl := none,
             faviconUrl := some FAVICON_URL } := by
  refine ⟨by decide, by decide, by decide⟩

/-- C8 amended: the diagonal merge is the identity on every valid
deployment context that has a demoContent object and a branding object
with a truthy faviconUrl. -/
theorem c8_merge_idem (a : DeploymentContext)
    (hval : (validateDeploymentContext (some a)).valid = true)
    (hdc : ∃ d, a.demoContent = some d)
    (hbr : ∃ br, a.branding = some br ∧ truthyStr br.faviconUrl = true) :
    mergeDeploymentContexts a a = a := by
  obtain ⟨tpl, plg, dc, br, ft⟩ := a
  obtain ⟨d, hd⟩ := hdc
  obtain ⟨brv, hb, hfav⟩ := hbr
  simp only at hd hb
  subst hd
  subst hb
  cases tpl with
  | none =>
    exfalso
    simp [validateDeploymentContext] at hval
  | some t =>
    simp [mergeDeploymentContexts, mergeTemplate, mergeDemoContent, mergeBranding,
      spreadOpt_self, jsOrOpt_self, jsOrStr_truthy hfav, Option.bind]

/-- Witness for C8 amended at a concrete valid context with explicit
faviconUrl. -/
theorem c8_merge_idem_witness :
    mergeDeploymentContexts ctxWithFavicon ctxWithFavicon = ctxWithFavicon := by
  exact c8_merge_idem ctxWithFavicon (by decide)
    ⟨demoContentFixture, by decide⟩
    ⟨brandingWithFavicon, by decide, by decide⟩

/-- C9 counterexample: with no pages provided, the defaults are the four
pages home/about/services/contact — there is no fifth blog page. -/
theorem c9_counterexample :
    (createContentContext emptyContentOptions).pages.map PageDef.slug =
      ["home", "about", "services", "contact"] ∧
    (buildContentContextFromScrape { content := none } emptyAnalysis).pages.map
        PageDef.slug ≠ ["home", "about", "services", "contact", "blog"] := by
  refine ⟨by decide, by decide⟩

/-- C9 amended: whenever the options or the scrape analysis provide no
pages, the pages field defaults to exactly the four pages with slugs home,
about, services, contact, in that order. -/
theorem c9_default_pages (o : ContentOptions) (ho : o.pages = none)
    (scraped : ScrapedData) (analysis : Analysis)
    (hp : analysis.siteStructure = none ∨
      ∃ st, analysis.siteStructure = some st ∧ st.pages = none) :
    (createContentContext o).pages = defaultContentPages ∧
    (buildContentContextFromScrape scraped analysis).pages = defaultContentPages ∧
    defaultContentPages.map PageDef.slug = ["home", "about", "services", "contact"] := by
  refine ⟨by simp [createContentContext, ho], ?_, by decide⟩
  rcases hp with hp | ⟨st, hst, hstp⟩
  · rcases hseo : analysis.seo with _ | sp <;>
      rcases hbi : analysis.businessInfo with _ | p <;>
      simp [buildContentContextFromScrape, hp, hseo, hbi, createContentContext,
        emptyContentOptions]
  · rcases hseo : analysis.seo with _ | sp <;>
      rcases hbi : analysis.businessInfo with _ | p <;>
      simp [buildContentContextFromScrape, hst, hstp, hseo, hbi, createContentContext,
        emptyContentOptions]

/-- Witness for C9 amended at the empty options and empty analysis. -/
theorem c9_default_pages_witness :
    (createContentContext emptyContentOptions).pages = defaultContentPages ∧
    (buildContentContextFromScrape { content := none } emptyAnalysis).pages =
      defaultContentPages := by
  have h := c9_default_pages emptyContentOptions (by decide) { content := none }
    emptyAnalysis (Or.inl (by decide))
  exact ⟨h.1, h.2.1⟩

end Schemas

end WordToSite

namespace WordToSite

namespace Editor

/-- C7 counterexample: the returned message is not literally the reply with
the action blocks removed — removal leaves a trailing newline run, which
sendMessage additionally collapses and trims. -/
theorem c7_counterexample :
    (sendMessage decodeFixture wpFixture true replyTrailing).1 = "Done." ∧
    String.mk (removeActionBlocks replyTrailing) = "Done.\n\n\n" ∧
    (sendMessage decodeFixture wpFixture true replyTrailing).1 ≠
      String.mk (removeActionBlocks replyTrailing) := by
  refine ⟨by decide, by decide, by decide⟩

/-- C7 amended: with site credentials present, the changes list has exactly
one entry per parsed action, in source order; each entry carries
success=true with the call result or success=false with the error, an
unknown type yielding a success=false entry with the unknown-type message;
a failing action never truncates the batch (the length equality holds
regardless of outcomes); and the returned message is the reply text with
the block matches removed, newline runs of three or more collapsed to two,
and the ends trimmed. -/
theorem c7_action_batch (decode : String → Option Action) (wp : WpOracle)
    (reply : String) :
    (sendMessage decode wp true reply).1 =
      String.mk (trimChars (collapseNewlines (removeActionBlocks reply))) ∧
    (sendMessage decode wp true reply).2.map AppliedChange.action =
      (parseActions decode reply).2 ∧
    (sendMessage decode wp true reply).2.length =
      (parseActions decode reply).2.length ∧
    (∀ c ∈ (sendMessage decode wp true reply).2,
      (c.success = true ∧ ∃ r, c.result = some r ∧
        executeAction wp c.action = .ok r) ∨
      (c.success = false ∧ ∃ e, c.error = some e ∧
        executeAction wp c.action = .error e)) ∧
    (∀ c ∈ (sendMessage decode wp true reply).2,
      c.action.type ≠ "update_page" → c.action.type ≠ "update_settings" →
      c.action.type ≠ "create_page" →
      c.success = false ∧
      c.error = some ("Unknown action type: " ++ c.action.type)) := by
  have hch : (sendMessage decode wp true reply).2 =
      (parseActions decode reply).2.map (fun a =>
        match executeAction wp a with
        | .ok r => { action := a, success := true, result := some r, error := none }
        | .error e =>
          { action := a, success := false, result := none, error := some e }) := by
    simp only [sendMessage]
    cases h : (parseActions decode reply).2 <;> simp [h]
  have hacts : ∀ l : List Action,
      (l.map (fun a =>
        match executeAction wp a with
        | .ok r => { action := a, success := true, result := some r, error := none }
        | .error e =>
          ({ action := a, success := false, result := none,
             error := some e } : AppliedChange) )).map AppliedChange.action = l := by
    intro l
    induction l with
    | nil => rfl
    | cons a t ih =>
      simp only [List.map_cons, ih, List.cons.injEq, and_true]
      cases executeAction wp a <;> rfl
  refine ⟨rfl, ?_, ?_, ?_, ?_⟩
  · rw [hch]
    exact hacts _
  · rw [hch, List.length_map]
  · intro c hc
    rw [hch] at hc
    obtain ⟨a, ha, rfl⟩ := List.mem_map.mp hc
    cases he : executeAction wp a
    case error e => exact Or.inr (by simp [he])
    case ok r => exact Or.inl (by simp [he])
  · intro c hc h1 h2 h3
    rw [hch] at hc
    obtain ⟨a, ha, rfl⟩ := List.mem_map.mp hc
    cases he : executeAction wp a with
    | ok r =>
      simp only [he] at h1 h2 h3 ⊢
      simp only [executeAction] at he
      simp at h1 h2 h3
      rw [if_neg h1, if_neg h2, if_neg h3] at he
      exact absurd he (by simp)
    | error e =>
      simp only [he] at h1 h2 h3 ⊢
      simp only [executeAction] at he
      simp at h1 h2 h3 ⊢
      rw [if_neg h1, if_neg h2, if_neg h3] at he
      simp at he
      exact he.symm

/-- Witness for C7 amended at the three-block fixture reply: the cleaned
message, one change per action in order, and the unknown-type entry failing
with the unknown-type message. -/
theorem c7_action_batch_witness :
    (sendMessage decodeFixture wpFixture true replyFixture).1 =
      "Updating your home and creating a pricing page." ∧
    (sendMessage decodeFixture wpFixture true replyFixture).2.map
        AppliedChange.action =
      [{ type := "update_page", payload := "u" },
       { type := "create_page", payload := "c" },
       { type := "zap_page", payload := "z" }] ∧
    changeUnknown.success = false ∧
    changeUnknown.error = some ("Unknown action type: " ++ changeUnknown.action.type) := by
  have h := c7_action_batch decodeFixture wpFixture replyFixture
  refine ⟨h.1.trans (by decide), h.2.1.trans (by decide), ?_, ?_⟩
  · exact (h.2.2.2.2 changeUnknown (by decide) (by decide) (by decide) (by decide)).1
  · exact (h.2.2.2.2 changeUnknown (by decide) (by decide) (by decide) (by decide)).2

end Editor

end WordToSite
